import Mathlib

/-!
Verification of the tinky-alert component against its specification.

The development embeds, in Lean, the variant-to-presentation resolution and
the Alert render path of the tinky-alert package:

- colorByVariant, alertTheme.container, alertTheme.iconContainer,
  alertTheme.icon, alertTheme.content, alertTheme.title and
  alertTheme.message follow src/themes/alert-theme.tsx;
- iconMap and Alert follow src/components/Alert.tsx;
- the glyph tables of the external tinky-figures package are not part of
  this repository, so unicodeFigures, fallbackFigures and useFigures are
  modelled from the specification.

JavaScript record lookups that can miss (colorByVariant[variant] and
iconMap[variant] on an out-of-set variant string) are embedded as functions
returning Option String, with none standing for the undefined value.
Box and Text props are records of optional attributes, a field left at none
standing for an attribute the style function did not set.
-/

namespace TinkyAlert

/-- colorByVariant from src/themes/alert-theme.tsx (lines 81 to 86): a record
literal keyed by the four variant names; indexing with any other string
yields undefined, embedded as none. -/
def colorByVariant (variant : String) : Option String :=
  if variant = "info" then some "blue"
  else if variant = "success" then some "green"
  else if variant = "error" then some "red"
  else if variant = "warning" then some "yellow"
  else none

/-- Box layout attributes used by the alert theme: the subset of BoxProps
that the style functions of alert-theme.tsx ever set. A field at none is an
attribute the style function left unset. -/
structure BoxProps where
  flexGrow : Option Nat := none
  flexShrink : Option Nat := none
  minWidth : Option Nat := none
  flexDirection : Option String := none
  borderStyle : Option String := none
  borderColor : Option String := none
  gap : Option Nat := none
  paddingX : Option Nat := none
deriving DecidableEq, Repr

/-- Text attributes used by the alert theme: the subset of TextProps that
the style functions of alert-theme.tsx ever set. -/
structure TextProps where
  color : Option String := none
  bold : Option Bool := none
deriving DecidableEq, Repr

namespace alertTheme

/-- container style function of alert-theme.tsx (lines 198 to 204). -/
def container (variant : String) : BoxProps :=
  { flexGrow := some 1
    borderStyle := some "round"
    borderColor := colorByVariant variant
    gap := some 1
    paddingX := some 1 }

/-- iconContainer style function of alert-theme.tsx (lines 228 to 230). -/
def iconContainer : BoxProps :=
  { flexShrink := some 0 }

/-- icon style function of alert-theme.tsx (lines 257 to 259). -/
def icon (variant : String) : TextProps :=
  { color := colorByVariant variant }

/-- content style function of alert-theme.tsx (lines 287 to 293). -/
def content : BoxProps :=
  { flexShrink := some 1
    flexGrow := some 1
    minWidth := some 0
    flexDirection := some "column"
    gap := some 1 }

/-- title style function of alert-theme.tsx (lines 317 to 319). -/
def title : TextProps :=
  { bold := some true }

/-- message style function of alert-theme.tsx (line 343): empty record. -/
def message : TextProps :=
  {}

end alertTheme

/-- Figure glyph record of the tinky-figures package: the four fields the
Alert component reads. -/
structure Figures where
  info : String
  tick : String
  cross : String
  warning : String
deriving DecidableEq, Repr

/-- Modelled from the spec: the Unicode glyph table of the external
tinky-figures package, which is not part of this repository. The table in
section 4.1 of the spec gives info ℹ, success (tick) ✔, error (cross) ✘,
warning ⚠. -/
def unicodeFigures : Figures :=
  { info := "ℹ", tick := "✔", cross := "✘", warning := "⚠" }

/-- Modelled from the spec: the ASCII fallback glyph table of the external
tinky-figures package, which is not part of this repository. The table in
section 4.1 of the spec gives info i, success √, error ×, warning ‼. -/
def fallbackFigures : Figures :=
  { info := "i", tick := "√", cross := "×", warning := "‼" }

/-- Modelled from the spec: the useFigures capability selection of the
external tinky-figures package. Per the selection rule of section 4.1, the
Unicode table is used when the capability flag is true, the fallback table
otherwise. -/
def useFigures (unicodeSupported : Bool) : Figures :=
  if unicodeSupported then unicodeFigures else fallbackFigures

/-- iconMap from src/components/Alert.tsx (lines 228 to 233): a record
literal keyed by the four variant names mapping each to its figure glyph;
indexing with any other string yields undefined, embedded as none. -/
def iconMap (figures : Figures) (variant : String) : Option String :=
  if variant = "info" then some figures.info
  else if variant = "success" then some figures.tick
  else if variant = "error" then some figures.cross
  else if variant = "warning" then some figures.warning
  else none

/-- VariantStyle of the spec data model: the resolved color and icon of a
variant. Either component is none when the corresponding record lookup in
the source misses. -/
structure VariantStyle where
  color : Option String
  icon : Option String
deriving DecidableEq, Repr

/-- The variant resolver assembled exactly as the source wires it: the color
comes from colorByVariant of alert-theme.tsx, the icon from iconMap of
Alert.tsx applied to the figure set selected by the capability flag. -/
def resolve (variant : String) (unicodeSupported : Bool) : VariantStyle :=
  { color := colorByVariant variant
    icon := iconMap (useFigures unicodeSupported) variant }

/-- Layout description tree: box nodes carry BoxProps and children, text
nodes carry TextProps and a string (none for an undefined glyph, which JSX
renders as nothing), and textContent nodes carry the caller-supplied message
content of arbitrary type, which the renderer never inspects. -/
inductive Node (α : Type) where
  | box : BoxProps → List (Node α) → Node α
  | text : TextProps → Option String → Node α
  | textContent : TextProps → α → Node α
deriving Repr

/-- Title gating of Alert.tsx line 243: the JSX conditional emits a bold
title text node exactly when the title prop is present and non-empty (a
falsy empty string, like an absent title, renders nothing). -/
def titleNodes {α : Type} (titleProp : Option String) : List (Node α) :=
  match titleProp with
  | some t => if t = "" then [] else [Node.text alertTheme.title (some t)]
  | none => []

/-- Alert from src/components/Alert.tsx (lines 224 to 248): a container box
holding an icon slot (an iconContainer box with the icon text inside) and a
content slot (a content box with the optional title node above the message
node). The unicodeSupported flag stands for the capability the useFigures
hook reads from the environment. -/
def Alert {α : Type} (unicodeSupported : Bool) (variant : String)
    (titleProp : Option String) (children : α) : Node α :=
  Node.box (alertTheme.container variant)
    [ Node.box alertTheme.iconContainer
        [Node.text (alertTheme.icon variant)
          (iconMap (useFigures unicodeSupported) variant)],
      Node.box alertTheme.content
        (titleNodes titleProp ++ [Node.textContent alertTheme.message children]) ]

/-- C1 counterexample: the claim says that for a variant outside the closed
set the render path surfaces an error before any layout description is
produced. It is false: at the out-of-set variant "bogus" the render path
raises nothing and produces a complete layout description, with the border
color, icon color and icon glyph all absent. -/
theorem C1_counterexample :
    Alert true "bogus" none "msg" =
      Node.box
        { flexGrow := some 1, borderStyle := some "round", gap := some 1,
          paddingX := some 1 }
        [ Node.box { flexShrink := some 0 } [Node.text {} none],
          Node.box
            { flexShrink := some 1, flexGrow := some 1, minWidth := some 0,
              flexDirection := some "column", gap := some 1 }
            [Node.textContent {} "msg"] ] := by
  rfl

/-- C1 amended: for every variant value outside the closed set of four, the
Alert render path raises no error and silently produces the usual layout
description, with the container border color, the icon color and the icon
glyph all absent (undefined); invalid variants are rejected only statically
by the TypeScript type of the variant prop, not at render time. -/
theorem C1_amended {α : Type} (b : Bool) (v : String) (t : Option String)
    (m : α)
    (h : v ≠ "info" ∧ v ≠ "success" ∧ v ≠ "error" ∧ v ≠ "warning") :
    Alert b v t m =
      Node.box
        { flexGrow := some 1, borderStyle := some "round", gap := some 1,
          paddingX := some 1 }
        [ Node.box { flexShrink := some 0 } [Node.text {} none],
          Node.box
            { flexShrink := some 1, flexGrow := some 1, minWidth := some 0,
              flexDirection := some "column", gap := some 1 }
            (titleNodes t ++ [Node.textContent {} m]) ] := by
  obtain ⟨h1, h2, h3, h4⟩ := h
  simp [Alert, alertTheme.container, alertTheme.iconContainer,
    alertTheme.icon, alertTheme.content, alertTheme.message,
    colorByVariant, iconMap, h1, h2, h3, h4]

/-- C1 witness: the amended statement instantiated at the concrete
out-of-set variant "bogus" with no title and message "msg". -/
theorem C1_witness :
    (("bogus" : String) ≠ "info" ∧ ("bogus" : String) ≠ "success" ∧
      ("bogus" : String) ≠ "error" ∧ ("bogus" : String) ≠ "warning") ∧
    Alert true "bogus" none "msg" =
      Node.box
        { flexGrow := some 1, borderStyle := some "round", gap := some 1,
          paddingX := some 1 }
        [ Node.box { flexShrink := some 0 } [Node.text {} none],
          Node.box
            { flexShrink := some 1, flexGrow := some 1, minWidth := some 0,
              flexDirection := some "column", gap := some 1 }
            (titleNodes none ++ [Node.textContent {} "msg"]) ] :=
  ⟨by decide, C1_amended true "bogus" none "msg" (by decide)⟩

/-- C2: for every variant, the resolved icon is the Unicode glyph of that
variant (info ℹ, success ✔, error ✘, warning ⚠) when the capability flag is
true, and the ASCII fallback (info i, success √, error ×, warning ‼) when it
is false. -/
theorem C2_icon_resolution :
    (resolve "info" true).icon = some "ℹ" ∧
    (resolve "success" true).icon = some "✔" ∧
    (resolve "error" true).icon = some "✘" ∧
    (resolve "warning" true).icon = some "⚠" ∧
    (resolve "info" false).icon = some "i" ∧
    (resolve "success" false).icon = some "√" ∧
    (resolve "error" false).icon = some "×" ∧
    (resolve "warning" false).icon = some "‼" :=
  ⟨rfl, rfl, rfl, rfl, rfl, rfl, rfl, rfl⟩

/-- C3: the variant-to-color mapping is info to blue, success to green,
error to red, warning to yellow, and the container style uses exactly this
resolved color as the border color of the alert container. -/
theorem C3_color_mapping :
    colorByVariant "info" = some "blue" ∧
    colorByVariant "success" = some "green" ∧
    colorByVariant "error" = some "red" ∧
    colorByVariant "warning" = some "yellow" ∧
    (∀ v : String, (alertTheme.container v).borderColor = colorByVariant v) :=
  ⟨rfl, rfl, rfl, rfl, fun _ => rfl⟩

/-- C4: rendering with an empty-string title or with the title absent yields
a layout whose content slot holds only the message node (no title node);
rendering with a non-empty title X yields a title text node whose text is X
and whose bold flag is true, placed above the message node in the
column-direction content slot. -/
theorem C4_title_gating {α : Type} (b : Bool) (v : String) (m : α)
    (X : String) (hX : X ≠ "") :
    Alert b v none m =
      Node.box (alertTheme.container v)
        [ Node.box alertTheme.iconContainer
            [Node.text (alertTheme.icon v) (iconMap (useFigures b) v)],
          Node.box alertTheme.content
            [Node.textContent alertTheme.message m] ] ∧
    Alert b v (some "") m = Alert b v none m ∧
    Alert b v (some X) m =
      Node.box (alertTheme.container v)
        [ Node.box alertTheme.iconContainer
            [Node.text (alertTheme.icon v) (iconMap (useFigures b) v)],
          Node.box alertTheme.content
            [Node.text alertTheme.title (some X),
              Node.textContent alertTheme.message m] ] ∧
    alertTheme.title = { color := none, bold := some true } ∧
    alertTheme.content.flexDirection = some "column" := by
  refine ⟨rfl, rfl, ?_, rfl, rfl⟩
  simp [Alert, titleNodes, hX]

/-- C4 witness: the title gating statement instantiated at variant success,
fallback figures, message "msg" and the non-empty title "T". -/
theorem C4_witness :
    (("T" : String) ≠ "") ∧
    (Alert false "success" none "msg" =
      Node.box (alertTheme.container "success")
        [ Node.box alertTheme.iconContainer
            [Node.text (alertTheme.icon "success")
              (iconMap (useFigures false) "success")],
          Node.box alertTheme.content
            [Node.textContent alertTheme.message "msg"] ] ∧
    Alert false "success" (some "") "msg" = Alert false "success" none "msg" ∧
    Alert false "success" (some "T") "msg" =
      Node.box (alertTheme.container "success")
        [ Node.box alertTheme.iconContainer
            [Node.text (alertTheme.icon "success")
              (iconMap (useFigures false) "success")],
          Node.box alertTheme.content
            [Node.text alertTheme.title (some "T"),
              Node.textContent alertTheme.message "msg"] ] ∧
    alertTheme.title = { color := none, bold := some true } ∧
    alertTheme.content.flexDirection = some "column") :=
  ⟨by decide, C4_title_gating false "success" "msg" "T" (by decide)⟩

/-- C5: for every render, the message text node carries exactly the
caller-supplied children value, unmodified, for arbitrary content (the
renderer is polymorphic in it, so empty and whitespace-only strings pass
through unchanged and rendering is total, never an error), and the message
style sets no attribute at all, in particular no emphasis. -/
theorem C5_message_passthrough {α : Type} (b : Bool) (v : String)
    (t : Option String) (m : α) :
    (∃ pre, Alert b v t m =
      Node.box (alertTheme.container v)
        [ Node.box alertTheme.iconContainer
            [Node.text (alertTheme.icon v) (iconMap (useFigures b) v)],
          Node.box alertTheme.content
            (pre ++ [Node.textContent alertTheme.message m]) ]) ∧
    alertTheme.message = { color := none, bold := none } :=
  ⟨⟨titleNodes t, rfl⟩, rfl⟩

/-- C6: for every variant string, the resolved color with the Unicode flag
true equals the resolved color with the flag false: the capability flag
never changes color selection, which depends on the variant alone. -/
theorem C6_color_stability :
    ∀ v : String, (resolve v true).color = (resolve v false).color :=
  fun _ => rfl

/-- C7: for every variant string, the container style carries the fixed
attributes flexGrow 1, border style round, horizontal padding 1 and gap 1,
and any two container styles agree on every attribute except possibly the
border color: replacing the border color of one with that of the other
yields exactly the other. -/
theorem C7_container_fixed :
    (∀ v : String,
      (alertTheme.container v).flexGrow = some 1 ∧
      (alertTheme.container v).borderStyle = some "round" ∧
      (alertTheme.container v).paddingX = some 1 ∧
      (alertTheme.container v).gap = some 1) ∧
    (∀ v w : String,
      { alertTheme.container v with
          borderColor := (alertTheme.container w).borderColor } =
        alertTheme.container w) :=
  ⟨fun _ => ⟨rfl, rfl, rfl, rfl⟩, fun _ _ => rfl⟩

/-- C8: every render produces a container with exactly two children: an
icon slot whose box has flexShrink 0 and whose text node shows the resolved
icon in the resolved color, and a content slot whose box is a flexGrow 1,
flexShrink 1, minWidth 0 column with gap 1. -/
theorem C8_two_slots {α : Type} (b : Bool) (v : String) (t : Option String)
    (m : α) :
    (∃ kids, Alert b v t m =
      Node.box (alertTheme.container v)
        [ Node.box alertTheme.iconContainer
            [Node.text (alertTheme.icon v) (iconMap (useFigures b) v)],
          Node.box alertTheme.content kids ]) ∧
    alertTheme.iconContainer = { flexShrink := some 0 } ∧
    (alertTheme.icon v).color = (resolve v b).color ∧
    iconMap (useFigures b) v = (resolve v b).icon ∧
    alertTheme.content =
      { flexShrink := some 1, flexGrow := some 1, minWidth := some 0,
        flexDirection := some "column", gap := some 1 } :=
  ⟨⟨titleNodes t ++ [Node.textContent alertTheme.message m], rfl⟩,
    rfl, rfl, rfl, rfl⟩

/-- C9: for any variant string outside the four recognized values, the
container and icon style functions raise nothing: they return the usual
fixed layout attributes with the border color, respectively the text color,
absent (none), so an unstyled alert is produced instead of a failure. -/
theorem C9_unstyled_fallback (v : String)
    (h : v ≠ "info" ∧ v ≠ "success" ∧ v ≠ "error" ∧ v ≠ "warning") :
    alertTheme.container v =
      { flexGrow := some 1, borderStyle := some "round", borderColor := none,
        gap := some 1, paddingX := some 1 } ∧
    alertTheme.icon v = { color := none } := by
  obtain ⟨h1, h2, h3, h4⟩ := h
  constructor
  · simp [alertTheme.container, colorByVariant, h1, h2, h3, h4]
  · simp [alertTheme.icon, colorByVariant, h1, h2, h3, h4]

/-- C9 witness: the unstyled fallback statement instantiated at the
concrete out-of-set variant string "purple". -/
theorem C9_witness :
    (("purple" : String) ≠ "info" ∧ ("purple" : String) ≠ "success" ∧
      ("purple" : String) ≠ "error" ∧ ("purple" : String) ≠ "warning") ∧
    (alertTheme.container "purple" =
      { flexGrow := some 1, borderStyle := some "round", borderColor := none,
        gap := some 1, paddingX := some 1 } ∧
    alertTheme.icon "purple" = { color := none }) :=
  ⟨by decide, C9_unstyled_fallback "purple" (by decide)⟩

/-- C10: for every variant string, the icon text color equals the container
border color, both being drawn from the single colorByVariant table. -/
theorem C10_icon_matches_border :
    ∀ v : String,
      (alertTheme.icon v).color = (alertTheme.container v).borderColor :=
  fun _ => rfl

end TinkyAlert
